import Mathlib

/-!
Shallow embedding of the FastAPI face-swap service (`main.py`).

The service is a single-file HTTP façade: `POST /swap` takes two image
uploads, validates their filenames, normalizes the payloads
(`compress_image`), deduplicates by a SHA-256 pair key against a TTL cache,
and on a miss writes the payloads to a request-scoped temporary directory,
invokes the remote swap (`face_swap`, decorated with
`@retry(tries=3, delay=2, backoff=2)`), classifies the string outcome and
either raises an HTTP 500 or stores the result path in the cache and
returns `{"result_image_url": "/output/<basename>"}`.

Modelling conventions:
* byte strings are `List Nat`;
* Python exceptions are the `CallResult.raise` constructor; code that
  catches them pattern-matches on it;
* the outside world (PIL succeeding or raising, the Gradio remote call,
  `uuid4().hex`, `NamedTemporaryFile` names, the wall clock) is an oracle
  recorded in environment structures (`SwapEnv`, `ReqEnv`);
* observable side effects (upload reads, temp-file creation/deletion, the
  network call, disk writes, cache writes, retry sleeps) are returned as an
  explicit `List Effect` trace;
* SHA-256 itself is abstracted as an oracle `digest : List Nat → Nat`;
  `get_file_hash` keeps what matters for the claims: `hexdigest()` is a
  fixed-width (64 hex character) rendering of a 256-bit value.
-/

namespace FaceSwap

/-- Outcome of running a Python expression: a normal value, or a raised
exception carrying `str(e)`. -/
inductive CallResult (α : Type) where
  | ret (a : α)
  | raise (msg : String)
  deriving DecidableEq

/-- Observable side effects of one request, in program order:
reading the payload of an upload, creating/deleting a temporary file, the remote
network call, writing a file under the output directory, storing a cache
entry, and a retry back-off sleep of the given number of seconds. -/
inductive Effect where
  | readUpload (field : String)
  | tempCreate (path : String)
  | tempDelete (path : String)
  | remoteCall
  | diskWrite (path : String)
  | cacheWrite (key val : String)
  | sleep (secs : Nat)
  deriving DecidableEq

/-- Python `str.lower()`, over the underlying character list. -/
def strLower (s : String) : String := String.mk (s.data.map Char.toLower)

/-- Python `str.endswith(t)`: the last `|t|` characters of `s` equal `t`. -/
def strEndsWith (s t : String) : Bool :=
  s.data.drop (s.data.length - t.data.length) == t.data

/-- Python `str.startswith(t)`. -/
def strStartsWith (s t : String) : Bool := List.isPrefixOf t.data s.data

/-- Python `name.rsplit(".", 1)[1]`: the characters after the last dot
(meaningful only when a dot is present, which every caller checks first). -/
def ext1 (s : String) : String :=
  String.mk ((s.data.reverse.takeWhile (fun c => c != '.')).reverse)

/-- Python `os.path.basename`: the characters after the last slash. -/
def basename (s : String) : String :=
  String.mk ((s.data.reverse.takeWhile (fun c => c != '/')).reverse)

/-- `ALLOWED_EXTENSIONS` as the set of png, jpg, jpeg (main.py line 36). -/
def ALLOWED_EXTENSIONS : List String := ["png", "jpg", "jpeg"]

/-- `OUTPUT_FOLDER = "output"` (main.py line 35). -/
def OUTPUT_FOLDER : String := "output"

/-- `allowed_file` (main.py line 43-44):
`"." in filename and filename.rsplit(".", 1)[1].lower() in ALLOWED_EXTENSIONS`. -/
def allowed_file (filename : String) : Bool :=
  filename.data.contains '.' && ALLOWED_EXTENSIONS.contains (strLower (ext1 filename))

/-- `validate_file` (main.py line 46-47):
`os.path.exists(file_path) and file_path.lower().endswith((".png", ".jpg", ".jpeg"))`.
The file system is a snapshot `fs` of the existing paths. -/
def validate_file (fs : List String) (file_path : String) : Bool :=
  fs.contains file_path &&
    (strEndsWith (strLower file_path) ".png" || strEndsWith (strLower file_path) ".jpg" ||
      strEndsWith (strLower file_path) ".jpeg")

/-- One lower-case hex digit. Only applied to numbers `< 16`. -/
def hexDigit (n : Nat) : Char :=
  if n < 10 then Char.ofNat (48 + n) else Char.ofNat (87 + n)

/-- Fixed-width hexadecimal rendering of a 256-bit number, 64 digits, most
significant first — the shape of `hashlib.sha256(...).hexdigest()`. -/
def toHex64 (n : Nat) : String :=
  String.mk ((List.range 64).map (fun i => hexDigit (n / 16 ^ (63 - i) % 16)))

/-- `get_file_hash` (main.py line 49-50):
`hashlib.sha256(file_content).hexdigest()`.  The SHA-256 compression
function itself is abstracted as the oracle `digest`; the embedding keeps
the structure the claims depend on: a deterministic, fixed-width (64 hex
character) digest of the byte payload. -/
def get_file_hash (digest : List Nat → Nat) (file_content : List Nat) : String :=
  toHex64 (digest file_content % 2 ^ 256)

/-- The pair key built by the handler (main.py line 145):
`f"{get_file_hash(source_content)}:{get_file_hash(dest_content)}"`. -/
def pairKey (digest : List Nat → Nat) (src dst : List Nat) : String :=
  get_file_hash digest src ++ ":" ++ get_file_hash digest dst

/-- Oracle describing what the imaging library does to one payload inside
`compress_image`: every step succeeds producing the re-encoded bytes `out`;
or `Image.open`/`thumbnail` raises (only the first temp file was created);
or `save`/`read` raises (both temp files were created). -/
inductive CompressBeh where
  | ok (out : List Nat)
  | failEarly (msg : String)
  | failLate (msg : String)
  deriving DecidableEq

/-- The `try` body of `compress_image` (main.py lines 53-62). Both
`NamedTemporaryFile(suffix=".png", delete=False)` files are created with
`delete=False` and are never unlinked, so only `tempCreate` effects appear
— there is no corresponding `tempDelete`. -/
def compress_image_try (beh : CompressBeh) (tmpIn tmpOut : String) :
    CallResult (List Nat) × List Effect :=
  match beh with
  | CompressBeh.ok out =>
    (CallResult.ret out, [Effect.tempCreate tmpIn, Effect.tempCreate tmpOut])
  | CompressBeh.failEarly m => (CallResult.raise m, [Effect.tempCreate tmpIn])
  | CompressBeh.failLate m =>
    (CallResult.raise m, [Effect.tempCreate tmpIn, Effect.tempCreate tmpOut])

/-- `compress_image` (main.py lines 52-65): the `try` body above wrapped in
`except Exception: return content` — on any internal failure the original
bytes come back unchanged. -/
def compress_image (beh : CompressBeh) (tmpIn tmpOut : String) (content : List Nat) :
    List Nat × List Effect :=
  match compress_image_try beh tmpIn tmpOut with
  | (CallResult.ret out, effs) => (out, effs)
  | (CallResult.raise _, effs) => (content, effs)

/-- Oracle for one `face_swap` invocation: the file-system snapshot seen by
`validate_file`/`os.path.exists`, the outcome of the Gradio
`client.predict` call (a result path, or a raised exception), whether
the PIL pipeline of `save_output_image` succeeds, and the `uuid4().hex` used for
the output filename. -/
structure SwapEnv where
  fs : List String
  remote : CallResult String
  saveOk : Bool
  uuidHex : String

/-- `save_output_image` (main.py lines 76-87): on success it writes
`os.path.join(output_dir, output_name)` (conversion to RGB, PNG save, plus
the best-effort `enhance_image` sharpening that overwrites the same file
and swallows its own errors) and returns that path; on any failure the
`except` returns `""`. -/
def save_output_image (saveOk : Bool) (output_dir output_name : String) :
    String × List Effect :=
  if saveOk then
    (output_dir ++ "/" ++ output_name, [Effect.diskWrite (output_dir ++ "/" ++ output_name)])
  else ("", [])

/-- The body of `face_swap` (main.py lines 90-120) including its
`try/except`: validation failure returns `"Invalid input files"` before any
network traffic; an exception from the remote call is caught by line 118
and surfaced as `"Error: " ++ str(e)`; a result path that is empty or does
not exist yields `"Face swap failed"`; otherwise `save_output_image` is
invoked on a fresh `face_swap_<uuid>.png` name and its failure sentinel
`""` yields `"Failed to save output"`.  Because of the catch-all `except`,
this function never raises. -/
def face_swap_body (env : SwapEnv) (source_image dest_image : String) :
    String × List Effect :=
  if !(validate_file env.fs source_image && validate_file env.fs dest_image) then
    ("Invalid input files", [])
  else
    match env.remote with
    | CallResult.raise m => ("Error: " ++ m, [Effect.remoteCall])
    | CallResult.ret result =>
      if result != "" && env.fs.contains result then
        let saved := save_output_image env.saveOk OUTPUT_FOLDER
          ("face_swap_" ++ env.uuidHex ++ ".png")
        if saved.1 != "" then (saved.1, Effect.remoteCall :: saved.2)
        else ("Failed to save output", Effect.remoteCall :: saved.2)
      else ("Face swap failed", [Effect.remoteCall])

/-- The semantics of the `retry` library decorator
`@retry(tries, delay, backoff)`: run `f`; when it raises and more tries
remain, sleep the current delay, multiply it by `backoff` and try again;
when the last try raises, re-raise.  Returns the final outcome, the number
of calls made and the list of back-off sleeps performed. -/
def retryRun {α : Type} (f : Nat → CallResult α) (backoff : Nat) :
    Nat → Nat → Nat → CallResult α × Nat × List Nat
  | attempt, 0, _ => (f attempt, attempt + 1, [])
  | attempt, 1, _ => (f attempt, attempt + 1, [])
  | attempt, n + 2, d =>
    match f attempt with
    | CallResult.ret a => (CallResult.ret a, attempt + 1, [])
    | CallResult.raise _ =>
      ((retryRun f backoff (attempt + 1) (n + 1) (d * backoff)).1,
        (retryRun f backoff (attempt + 1) (n + 1) (d * backoff)).2.1,
        d :: (retryRun f backoff (attempt + 1) (n + 1) (d * backoff)).2.2)

/-- `retry(tries, delay, backoff)` applied to a callable `f`. -/
def retryCall {α : Type} (tries delay backoff : Nat) (f : Nat → CallResult α) :
    CallResult α × Nat × List Nat :=
  retryRun f backoff 0 tries delay

/-- What one decorated `face_swap(...)` invocation looks like from the
caller: the awaited value (or a re-raised exception), how many times the
decorated callable ran, and which back-off sleeps happened. -/
structure SwapTrace where
  result : CallResult (String × List Effect)
  attempts : Nat
  sleeps : List Nat

/-- `face_swap` as deployed: `@retry(tries=3, delay=2, backoff=2)` around
the body (main.py line 89).  The decorated callable is an `async def`
whose own `try/except` converts every exception into a returned string, so
each call of the callable returns normally (`CallResult.ret`) — the retry
wrapper never observes an exception.  (Independently, in CPython the
decorator wraps a coroutine function, so a call returns the coroutine
without executing the body at all; on either reading the wrapper sees only
normal returns.) -/
def face_swap (env : SwapEnv) (source_image dest_image : String) : SwapTrace :=
  { result :=
      (retryCall 3 2 2 (fun _ => CallResult.ret (face_swap_body env source_image dest_image))).1
    attempts :=
      (retryCall 3 2 2 (fun _ => CallResult.ret (face_swap_body env source_image dest_image))).2.1
    sleeps :=
      (retryCall 3 2 2 (fun _ => CallResult.ret (face_swap_body env source_image dest_image))).2.2 }

/-- The value the handler gets from `await face_swap(...)`.  The `raise`
branch is dead code: `face_swap_run` below proves the decorated call always
returns `CallResult.ret (face_swap_body ...)`. -/
def face_swap_value (env : SwapEnv) (source_image dest_image : String) :
    String × List Effect :=
  match (face_swap env source_image dest_image).result with
  | CallResult.ret v => v
  | CallResult.raise m => ("Error: " ++ m, [])

/-- `cache = TTLCache(maxsize=100, ttl=3600)` (main.py line 39): entries are
`(key, value, expiry)`; `ttl=3600` so an entry stored at `t` expires at
`t + 3600`.  (`maxsize` eviction only matters with 100 intervening
insertions and is not modelled; the claims are about consecutive
requests.) -/
abbrev Cache := List (String × String × Nat)

/-- The TTL constant (`ttl=3600`). -/
def TTL : Nat := 3600

/-- `cache_key in cache` followed by `cache[cache_key]`: a stored entry is
visible while `now < expiry`. -/
def cacheGet (cache : Cache) (now : Nat) (key : String) : Option String :=
  match cache.find? (fun e => e.1 == key && decide (now < e.2.2)) with
  | some e => some e.2.1
  | none => none

/-- `cache[cache_key] = result`: (re)insert with a fresh expiry `now + TTL`. -/
def cachePut (cache : Cache) (now : Nat) (key val : String) : Cache :=
  (key, val, now + TTL) :: cache.filter (fun e => !(e.1 == key))

/-- One multipart upload: declared filename (`""` models a missing
filename, which is falsy in Python exactly like `None`) and raw byte
payload. -/
structure UploadFile where
  filename : String
  content : List Nat
  deriving DecidableEq

/-- Oracle for one `/swap` request: the digest oracle, what the imaging
library does to each payload inside `compress_image`, the
`NamedTemporaryFile` names handed out during normalization, the
`TemporaryDirectory` name, the `uuid4().hex` values for the temp source /
temp dest / output filenames, the rest of the file-system snapshot, the
remote-call outcome, the PIL save outcome, and the wall-clock
time of the request (for the TTL cache). -/
structure ReqEnv where
  digest : List Nat → Nat
  compress : List Nat → CompressBeh
  tmpInS : String
  tmpOutS : String
  tmpInD : String
  tmpOutD : String
  tempDir : String
  uuidS : String
  uuidD : String
  uuidOut : String
  swapFs : List String
  remote : CallResult String
  saveOk : Bool
  now : Nat

/-- `compress_image(source_content)` as called on line 141. -/
def compressS (env : ReqEnv) (content : List Nat) : List Nat × List Effect :=
  compress_image (env.compress content) env.tmpInS env.tmpOutS content

/-- `compress_image(dest_content)` as called on line 142. -/
def compressD (env : ReqEnv) (content : List Nat) : List Nat × List Effect :=
  compress_image (env.compress content) env.tmpInD env.tmpOutD content

/-- The `cache_key` of line 145, built from the two normalized payloads. -/
def requestKey (env : ReqEnv) (src dst : UploadFile) : String :=
  pairKey env.digest (compressS env src.content).1 (compressD env dst.content).1

/-- Effects of lines 138-142: the two `await ....read()` calls and the two
`compress_image` calls.  These happen on every request that passes the
filename checks, before the cache lookup. -/
def requestEffectsPre (env : ReqEnv) (src dst : UploadFile) : List Effect :=
  Effect.readUpload "source" :: Effect.readUpload "dest" ::
    ((compressS env src.content).2 ++ (compressD env dst.content).2)

/-- The temp copy of the source upload (main.py lines 152, 154):
`os.path.join` of the request directory with `source_`, `uuid4().hex`, a dot
and the extension `filename.rsplit(".", 1)[1]` of the declared filename. -/
def sourceTempPath (env : ReqEnv) (src : UploadFile) : String :=
  env.tempDir ++ "/" ++ "source_" ++ env.uuidS ++ "." ++ ext1 src.filename

/-- The temp copy of the dest upload (main.py lines 153, 155):
`os.path.join` of the request directory with `dest_`, `uuid4().hex`, a dot
and the extension `filename.rsplit(".", 1)[1]` of the declared filename. -/
def destTempPath (env : ReqEnv) (dst : UploadFile) : String :=
  env.tempDir ++ "/" ++ "dest_" ++ env.uuidD ++ "." ++ ext1 dst.filename

/-- The `SwapEnv` in force when line 163 calls `face_swap`: the two temp
copies have just been written, so they exist alongside the rest of the
snapshot. -/
def requestSwapEnv (env : ReqEnv) (src dst : UploadFile) : SwapEnv :=
  { fs := sourceTempPath env src :: destTempPath env dst :: env.swapFs
    remote := env.remote
    saveOk := env.saveOk
    uuidHex := env.uuidOut }

/-- The string `result` of line 163. -/
def requestSwapResult (env : ReqEnv) (src dst : UploadFile) : String :=
  (face_swap_value (requestSwapEnv env src dst) (sourceTempPath env src)
    (destTempPath env dst)).1

/-- The effects of the `face_swap` call of line 163. -/
def requestSwapEffects (env : ReqEnv) (src dst : UploadFile) : List Effect :=
  (face_swap_value (requestSwapEnv env src dst) (sourceTempPath env src)
    (destTempPath env dst)).2

/-- The failure classification of line 164:
`result.startswith("Error") or result == "Invalid input files" or result == "Failed to save output"`. -/
def isFailureSentinel (result : String) : Bool :=
  strStartsWith result "Error" || result == "Invalid input files" ||
    result == "Failed to save output"

/-- HTTP-level outcome of the handler: an `HTTPException(status, detail)`,
or a 200 JSON body `{"result_image_url": url}`. -/
inductive HResp where
  | err (status : Nat) (detail : String)
  | ok (result_image_url : String)
  deriving DecidableEq

/-- The HTTP status code carried by a response (a plain return is 200). -/
def HResp.statusCode : HResp → Nat
  | HResp.err s _ => s
  | HResp.ok _ => 200

/-- Result of one request: the response, the cache state afterwards, and
the effect trace. -/
structure HandlerResult where
  resp : HResp
  cache : Cache
  effects : List Effect

/-- Effect trace of the error path of lines 151-166: the pre-lookup
effects, the two temp-copy writes inside the `TemporaryDirectory`, the
`face_swap` effects; the `with` block deletes its two files even though the
`HTTPException` propagates. -/
def errorEffects (env : ReqEnv) (src dst : UploadFile) : List Effect :=
  requestEffectsPre env src dst ++
    (Effect.tempCreate (sourceTempPath env src) :: Effect.tempCreate (destTempPath env dst) ::
      requestSwapEffects env src dst) ++
    [Effect.tempDelete (sourceTempPath env src), Effect.tempDelete (destTempPath env dst)]

/-- Effect trace of the success path of lines 151-170: as `errorEffects`
but with the cache store of line 168 before the `TemporaryDirectory`
cleanup. -/
def successEffects (env : ReqEnv) (src dst : UploadFile) : List Effect :=
  requestEffectsPre env src dst ++
    (Effect.tempCreate (sourceTempPath env src) :: Effect.tempCreate (destTempPath env dst) ::
      requestSwapEffects env src dst) ++
    (Effect.cacheWrite (requestKey env src dst) (requestSwapResult env src dst) ::
      [Effect.tempDelete (sourceTempPath env src), Effect.tempDelete (destTempPath env dst)])

/-- The `POST /swap` handler `swap_faces` (main.py lines 127-170):
filename presence check (400), extension check (400), payload reads,
normalization, pair-key cache lookup (hit: immediate 200 from the cached
location), and on a miss the temp writes, the `face_swap` call, the
line-164 failure classification (500, nothing cached) or the cache store
and 200 response built from `os.path.basename(result)`. -/
def swap_faces (env : ReqEnv) (cache : Cache) (source_image dest_image : UploadFile) :
    HandlerResult :=
  if source_image.filename = "" ∨ dest_image.filename = "" then
    { resp := HResp.err 400 "No file selected", cache := cache, effects := [] }
  else if !(allowed_file source_image.filename && allowed_file dest_image.filename) then
    { resp := HResp.err 400 "Invalid file format. Only PNG, JPG, JPEG allowed"
      cache := cache, effects := [] }
  else
    match cacheGet cache env.now (requestKey env source_image dest_image) with
    | some result_url =>
      { resp := HResp.ok ("/output/" ++ basename result_url), cache := cache
        effects := requestEffectsPre env source_image dest_image }
    | none =>
      if isFailureSentinel (requestSwapResult env source_image dest_image) then
        { resp := HResp.err 500 (requestSwapResult env source_image dest_image)
          cache := cache
          effects := errorEffects env source_image dest_image }
      else
        { resp :=
            HResp.ok ("/output/" ++ basename (requestSwapResult env source_image dest_image))
          cache := cachePut cache env.now (requestKey env source_image dest_image)
            (requestSwapResult env source_image dest_image)
          effects := successEffects env source_image dest_image }


/-- Concrete source upload used by the witnesses below. -/
def exSrc : UploadFile := ⟨"a.png", [1]⟩

/-- Concrete dest upload used by the witnesses below. -/
def exDst : UploadFile := ⟨"b.jpg", [2]⟩

/-- Concrete request oracle: the imaging library fails to decode (so
normalization falls back to the original bytes) and the remote call raises
a network error on every attempt. -/
def exEnvFail : ReqEnv :=
  { digest := fun l => l.length
    compress := fun _ => CompressBeh.failEarly "decode error"
    tmpInS := "/tmp/in_s.png"
    tmpOutS := "/tmp/out_s.png"
    tmpInD := "/tmp/in_d.png"
    tmpOutD := "/tmp/out_d.png"
    tempDir := "/tmp/req"
    uuidS := "aaaa"
    uuidD := "bbbb"
    uuidOut := "cccc"
    swapFs := []
    remote := CallResult.raise "netdown"
    saveOk := true
    now := 1000 }

/-- As `exEnvFail` but the remote call succeeds with an existing result
file, so the whole request succeeds. -/
def exEnvOk : ReqEnv :=
  { exEnvFail with remote := CallResult.ret "/srv/result.png", swapFs := ["/srv/result.png"] }

/-- As `exEnvFail` but the remote call returns an empty result location. -/
def exEnvNoResult : ReqEnv := { exEnvFail with remote := CallResult.ret "" }

/-- Concrete `face_swap` oracle: both inputs exist, the remote raises. -/
def exSwapEnvRaise : SwapEnv :=
  ⟨["/t/s.png", "/t/d.png"], CallResult.raise "network unreachable", true, "dead"⟩

/-- Concrete `face_swap` oracle: both inputs exist, the remote returns an
existing result file and the PIL save succeeds. -/
def exSwapEnvOk : SwapEnv :=
  ⟨["/t/s.png", "/t/d.png", "/r/res.png"], CallResult.ret "/r/res.png", true, "abc123"⟩

/-- `String.mk` of the underlying list is the identity. -/
theorem mk_data (s : String) : String.mk s.data = s := rfl

/-- `strLower` distributes over append. -/
theorem strLower_append (a b : String) : strLower (a ++ b) = strLower a ++ strLower b := by
  apply String.ext
  simp [strLower]

/-- A string always ends with its own appended suffix. -/
theorem strEndsWith_append (a b : String) : strEndsWith (a ++ b) b = true := by
  have h : (a ++ b).data.drop ((a ++ b).data.length - b.data.length) = b.data := by
    rw [String.data_append, List.length_append, Nat.add_sub_cancel, List.drop_left]
  simp [strEndsWith, h]

/-- Extending a string on the right keeps every prefix. -/
theorem strStartsWith_append_right (a b c : String) (h : strStartsWith a b = true) :
    strStartsWith (a ++ c) b = true := by
  simp [strStartsWith] at h ⊢
  exact h.trans (List.prefix_append _ _)

/-- Every rendered digest has exactly 64 characters, as
`sha256(...).hexdigest()` does. -/
theorem get_file_hash_data_length (digest : List Nat → Nat) (c : List Nat) :
    (get_file_hash digest c).data.length = 64 := by
  simp [get_file_hash, toHex64]

/-- The retry wrapper around `face_swap` never observes an exception — the
body catches them all — so every decorated call runs the body exactly once,
sleeps never, and returns the body value. -/
theorem face_swap_run (env : SwapEnv) (s d : String) :
    face_swap env s d =
      { result := CallResult.ret (face_swap_body env s d), attempts := 1, sleeps := [] } := rfl

/-- The value the handler awaits is exactly the body value. -/
theorem face_swap_value_eq (env : SwapEnv) (s d : String) :
    face_swap_value env s d = face_swap_body env s d := rfl

/-- A freshly stored cache entry is returned by any lookup strictly before
its expiry. -/
theorem cacheGet_cachePut_same (cache : Cache) (now t2 : Nat) (key val : String)
    (ht : t2 < now + TTL) :
    cacheGet (cachePut cache now key val) t2 key = some val := by
  simp [cacheGet, cachePut, List.find?, ht]

/-- The output path written by `save_output_image` is never the empty
string (it starts with the output folder). -/
theorem output_path_ne_empty (nm : String) : ((OUTPUT_FOLDER ++ "/" ++ nm) != "") = true := by
  simp [bne, String.ext_iff]

/-- `strLower` maps a dot-separated concatenation componentwise. -/
theorem strLower_dot3 (pre e : String) :
    strLower (pre ++ "." ++ e) = strLower pre ++ "." ++ strLower e := by
  rw [strLower_append, strLower_append]
  have h : strLower "." = "." := by decide
  rw [h]

/-- A path of the form `pre ++ "." ++ e` ends with `"." ++ e`. -/
theorem strEndsWith_dotext (pre e : String) :
    strEndsWith (pre ++ "." ++ e) ("." ++ e) = true := by
  have h : pre ++ "." ++ e = pre ++ ("." ++ e) := by
    apply String.ext
    simp
  rw [h]
  exact strEndsWith_append pre ("." ++ e)

/-- `validate_file` accepts any existing path whose (lower-cased) extension
is one of the allowed ones. -/
theorem validate_tempPath (fs : List String) (pre e : String)
    (hmem : fs.contains (pre ++ "." ++ e) = true)
    (he : ALLOWED_EXTENSIONS.contains (strLower e) = true) :
    validate_file fs (pre ++ "." ++ e) = true := by
  simp [ALLOWED_EXTENSIONS] at he
  unfold validate_file
  rw [hmem, Bool.true_and]
  rcases he with he | he | he <;> rw [strLower_dot3, he]
  · have h1 : strEndsWith (strLower pre ++ "." ++ "png") ".png" = true := by
      have h2 := strEndsWith_dotext (strLower pre) "png"
      rw [show ("." ++ "png" : String) = ".png" from by decide] at h2
      exact h2
    simp [h1]
  · have h1 : strEndsWith (strLower pre ++ "." ++ "jpg") ".jpg" = true := by
      have h2 := strEndsWith_dotext (strLower pre) "jpg"
      rw [show ("." ++ "jpg" : String) = ".jpg" from by decide] at h2
      exact h2
    simp [h1]
  · have h1 : strEndsWith (strLower pre ++ "." ++ "jpeg") ".jpeg" = true := by
      have h2 := strEndsWith_dotext (strLower pre) "jpeg"
      rw [show ("." ++ "jpeg" : String) = ".jpeg" from by decide] at h2
      exact h2
    simp [h1]

/-- Branch of the `face_swap` body where the remote call raises: the
`except` clause surfaces the message. -/
theorem face_swap_body_raise (env : SwapEnv) (s d m : String)
    (hv : validate_file env.fs s = true) (hw : validate_file env.fs d = true)
    (hr : env.remote = CallResult.raise m) :
    face_swap_body env s d = ("Error: " ++ m, [Effect.remoteCall]) := by
  simp [face_swap_body, hv, hw, hr]

/-- Branch of the `face_swap` body where the remote result is empty or does
not exist. -/
theorem face_swap_body_noresult (env : SwapEnv) (s d r : String)
    (hv : validate_file env.fs s = true) (hw : validate_file env.fs d = true)
    (hr : env.remote = CallResult.ret r)
    (hno : (r != "" && env.fs.contains r) = false) :
    face_swap_body env s d = ("Face swap failed", [Effect.remoteCall]) := by
  have hcase : r = "" ∨ r ∉ env.fs := by
    by_cases h1 : r = ""
    · exact Or.inl h1
    · by_cases h2 : r ∈ env.fs
      · exfalso
        have e1 : (r != "") = true := by simp [h1]
        have e2 : env.fs.contains r = true := List.elem_eq_true_of_mem h2
        rw [e1, e2] at hno
        simp at hno
      · exact Or.inr h2
  simp [face_swap_body, hv, hw, hr]
  intro h1 h2
  rcases hcase with hc | hc
  · exact absurd hc h1
  · exact absurd h2 hc

/-- Branch of the `face_swap` body where everything succeeds: the output
path is returned and the artifact is written to disk. -/
theorem face_swap_body_success (env : SwapEnv) (s d r : String)
    (hv : validate_file env.fs s = true) (hw : validate_file env.fs d = true)
    (hr : env.remote = CallResult.ret r)
    (hres : (r != "" && env.fs.contains r) = true) (hsave : env.saveOk = true) :
    face_swap_body env s d =
      (OUTPUT_FOLDER ++ "/" ++ ("face_swap_" ++ env.uuidHex ++ ".png"),
        [Effect.remoteCall,
          Effect.diskWrite (OUTPUT_FOLDER ++ "/" ++ ("face_swap_" ++ env.uuidHex ++ ".png"))]) := by
  simp [face_swap_body, hv, hw, hr, save_output_image, hsave, output_path_ne_empty]
  simpa using hres

/-- Branch of the `face_swap` body where input validation fails. -/
theorem face_swap_body_invalid (env : SwapEnv) (s d : String)
    (h : (validate_file env.fs s && validate_file env.fs d) = false) :
    face_swap_body env s d = ("Invalid input files", []) := by
  simp [face_swap_body, h]

/-- Branch of the `face_swap` body where `save_output_image` fails. -/
theorem face_swap_body_savefail (env : SwapEnv) (s d r : String)
    (hv : validate_file env.fs s = true) (hw : validate_file env.fs d = true)
    (hr : env.remote = CallResult.ret r)
    (hres : (r != "" && env.fs.contains r) = true) (hsave : env.saveOk = false) :
    face_swap_body env s d = ("Failed to save output", [Effect.remoteCall]) := by
  simp [face_swap_body, hv, hw, hr, save_output_image, hsave]
  simpa using hres

/-- Any string of the form `"Error: " ++ m` matches the failure
classification of main.py line 164. -/
theorem sentinel_error_append (m : String) : isFailureSentinel ("Error: " ++ m) = true := by
  have h := strStartsWith_append_right "Error: " "Error" m (by decide)
  simp [isFailureSentinel, h]

/-- The temp copies written by the handler pass `validate_file` inside the
`face_swap` invocation of line 163: they were just written, and they carry
the (allowed) extension of the corresponding upload. -/
theorem requestSwap_validates (env : ReqEnv) (src dst : UploadFile)
    (h3 : allowed_file src.filename = true) (h4 : allowed_file dst.filename = true) :
    validate_file (requestSwapEnv env src dst).fs (sourceTempPath env src) = true ∧
    validate_file (requestSwapEnv env src dst).fs (destTempPath env dst) = true := by
  simp only [allowed_file, Bool.and_eq_true] at h3 h4
  constructor
  · simp only [sourceTempPath]
    apply validate_tempPath
    · simp [requestSwapEnv, sourceTempPath]
    · exact h3.2
  · simp only [destTempPath]
    apply validate_tempPath
    · simp [requestSwapEnv, destTempPath]
    · exact h4.2

/-- The missing-filename branch of the handler (main.py line 130-132). -/
theorem swap_faces_nofile (env : ReqEnv) (cache : Cache) (src dst : UploadFile)
    (h : src.filename = "" ∨ dst.filename = "") :
    swap_faces env cache src dst =
      { resp := HResp.err 400 "No file selected", cache := cache, effects := [] } := by
  rcases h with h | h <;> simp [swap_faces, h]

/-- The disallowed-extension branch of the handler (main.py line 134-136). -/
theorem swap_faces_badfmt (env : ReqEnv) (cache : Cache) (src dst : UploadFile)
    (h1 : ¬(src.filename = "" ∨ dst.filename = ""))
    (h2 : (allowed_file src.filename && allowed_file dst.filename) = false) :
    swap_faces env cache src dst =
      { resp := HResp.err 400 "Invalid file format. Only PNG, JPG, JPEG allowed"
        cache := cache, effects := [] } := by
  simp [swap_faces, h1, h2]

/-- The cache-hit branch of the handler (main.py line 146-149). -/
theorem swap_faces_hit (env : ReqEnv) (cache : Cache) (src dst : UploadFile) (v : String)
    (h1 : ¬(src.filename = "" ∨ dst.filename = ""))
    (h2 : (allowed_file src.filename && allowed_file dst.filename) = true)
    (hhit : cacheGet cache env.now (requestKey env src dst) = some v) :
    swap_faces env cache src dst =
      { resp := HResp.ok ("/output/" ++ basename v), cache := cache
        effects := requestEffectsPre env src dst } := by
  simp [swap_faces, h1, h2, hhit]

/-- The cache-miss branch of the handler when the classification of line
164 matches: HTTP 500, cache untouched. -/
theorem swap_faces_miss_fail (env : ReqEnv) (cache : Cache) (src dst : UploadFile)
    (h1 : ¬(src.filename = "" ∨ dst.filename = ""))
    (h2 : (allowed_file src.filename && allowed_file dst.filename) = true)
    (hmiss : cacheGet cache env.now (requestKey env src dst) = none)
    (hfail : isFailureSentinel (requestSwapResult env src dst) = true) :
    swap_faces env cache src dst =
      { resp := HResp.err 500 (requestSwapResult env src dst), cache := cache
        effects := errorEffects env src dst } := by
  simp [swap_faces, h1, h2, hmiss, hfail]

/-- The cache-miss branch of the handler when the classification of line
164 does not match: store then respond. -/
theorem swap_faces_miss_ok (env : ReqEnv) (cache : Cache) (src dst : UploadFile)
    (h1 : ¬(src.filename = "" ∨ dst.filename = ""))
    (h2 : (allowed_file src.filename && allowed_file dst.filename) = true)
    (hmiss : cacheGet cache env.now (requestKey env src dst) = none)
    (hok : isFailureSentinel (requestSwapResult env src dst) = false) :
    swap_faces env cache src dst =
      { resp := HResp.ok ("/output/" ++ basename (requestSwapResult env src dst))
        cache := cachePut cache env.now (requestKey env src dst) (requestSwapResult env src dst)
        effects := successEffects env src dst } := by
  simp [swap_faces, h1, h2, hmiss, hok]

/-- `compress_image` only ever creates temporary files. -/
theorem mem_compress_effects (beh : CompressBeh) (ti tOut : String) (c : List Nat) (e : Effect)
    (h : e ∈ (compress_image beh ti tOut c).2) :
    e = Effect.tempCreate ti ∨ e = Effect.tempCreate tOut := by
  cases beh <;> simp [compress_image, compress_image_try] at h <;> tauto

/-- The pre-lookup effects are exactly the two upload reads and the
`compress_image` temp files. -/
theorem mem_requestEffectsPre (env : ReqEnv) (src dst : UploadFile) (e : Effect)
    (h : e ∈ requestEffectsPre env src dst) :
    e = Effect.readUpload "source" ∨ e = Effect.readUpload "dest" ∨
      e = Effect.tempCreate env.tmpInS ∨ e = Effect.tempCreate env.tmpOutS ∨
      e = Effect.tempCreate env.tmpInD ∨ e = Effect.tempCreate env.tmpOutD := by
  simp [requestEffectsPre] at h
  rcases h with h | h | h | h
  · tauto
  · tauto
  · rcases mem_compress_effects _ _ _ _ _ h with h | h <;> tauto
  · rcases mem_compress_effects _ _ _ _ _ h with h | h <;> tauto

/-- No remote call happens before (or instead of) the cache lookup. -/
theorem remoteCall_not_in_pre (env : ReqEnv) (src dst : UploadFile) :
    Effect.remoteCall ∉ requestEffectsPre env src dst := by
  intro h
  rcases mem_requestEffectsPre env src dst _ h with h | h | h | h | h | h <;> simp at h

/-- No output-directory write happens before (or instead of) the cache
lookup. -/
theorem diskWrite_not_in_pre (env : ReqEnv) (src dst : UploadFile) (p : String) :
    Effect.diskWrite p ∉ requestEffectsPre env src dst := by
  intro h
  rcases mem_requestEffectsPre env src dst _ h with h | h | h | h | h | h <;> simp at h

/-- No temp file is ever deleted before the cache lookup. -/
theorem tempDelete_not_in_pre (env : ReqEnv) (src dst : UploadFile) (p : String) :
    Effect.tempDelete p ∉ requestEffectsPre env src dst := by
  intro h
  rcases mem_requestEffectsPre env src dst _ h with h | h | h | h | h | h <;> simp at h

/-- The normalized bytes do not depend on the temp-file names handed out. -/
theorem compress_value_indep (beh : CompressBeh) (ti tOut ti2 tOut2 : String) (c : List Nat) :
    (compress_image beh ti tOut c).1 = (compress_image beh ti2 tOut2 c).1 := by
  cases beh <;> rfl

/-- The pair key is a function of the digest oracle, the imaging behaviour
and the payloads only — identical uploads produce identical keys across
requests. -/
theorem requestKey_indep (env env2 : ReqEnv) (src dst : UploadFile)
    (hd : env2.digest = env.digest) (hc : env2.compress = env.compress) :
    requestKey env2 src dst = requestKey env src dst := by
  unfold requestKey pairKey compressS compressD
  rw [hd, hc]
  rw [compress_value_indep (env.compress src.content) env2.tmpInS env2.tmpOutS env.tmpInS
      env.tmpOutS,
    compress_value_indep (env.compress dst.content) env2.tmpInD env2.tmpOutD env.tmpInD
      env.tmpOutD]

/-- The `face_swap` call only ever contacts the remote and writes the
output artifact. -/
theorem mem_face_swap_value_effects (env : SwapEnv) (s d : String) (e : Effect)
    (h : e ∈ (face_swap_value env s d).2) :
    e = Effect.remoteCall ∨ ∃ p, e = Effect.diskWrite p := by
  rw [face_swap_value_eq] at h
  by_cases hval : (validate_file env.fs s && validate_file env.fs d) = true
  · obtain ⟨hv, hw⟩ : validate_file env.fs s = true ∧ validate_file env.fs d = true := by
      simpa using hval
    cases hrem : env.remote with
    | raise m =>
      rw [face_swap_body_raise env s d m hv hw hrem] at h
      simp at h
      tauto
    | ret r =>
      by_cases hres : (r != "" && env.fs.contains r) = true
      · cases hsv : env.saveOk with
        | true =>
          rw [face_swap_body_success env s d r hv hw hrem hres hsv] at h
          simp at h
          tauto
        | false =>
          rw [face_swap_body_savefail env s d r hv hw hrem hres hsv] at h
          simp at h
          tauto
      · have hres2 : (r != "" && env.fs.contains r) = false := by simpa using hres
        rw [face_swap_body_noresult env s d r hv hw hrem hres2] at h
        simp at h
        tauto
  · have hval2 : (validate_file env.fs s && validate_file env.fs d) = false := by simpa using hval
    rw [face_swap_body_invalid env s d hval2] at h
    simp at h

/-- Specialization of `mem_face_swap_value_effects` to the call the handler
makes on line 163. -/
theorem mem_requestSwapEffects (env : ReqEnv) (src dst : UploadFile) (e : Effect)
    (h : e ∈ requestSwapEffects env src dst) :
    e = Effect.remoteCall ∨ ∃ p, e = Effect.diskWrite p :=
  mem_face_swap_value_effects _ _ _ _ h

/-- Any temp file created before the cache lookup is one of the four
`NamedTemporaryFile` names of the two `compress_image` calls. -/
theorem tempCreate_mem_pre (env : ReqEnv) (src dst : UploadFile) (p : String)
    (hp : Effect.tempCreate p ∈ requestEffectsPre env src dst) :
    p = env.tmpInS ∨ p = env.tmpOutS ∨ p = env.tmpInD ∨ p = env.tmpOutD := by
  rcases mem_requestEffectsPre env src dst _ hp with h | h | h | h | h | h <;> simp at h <;> tauto


/-- C1: the claim says an exception in the remote call is retried up to 3
attempts with 2s and 4s back-off sleeps before surfacing `"Error: <msg>"`.
The code cannot retry: the `try/except` inside the `async` body converts
every exception into a returned string before the `retry` decorator can see
it (and the decorator wraps a coroutine function anyway), so a raising
remote call produces exactly one attempt, no sleeps, and the immediate
`"Error: <msg>"` value.  This theorem evaluates the decorated `face_swap`
on any environment whose remote call raises. -/
theorem face_swap_exception_no_retry (env : SwapEnv) (s d m : String)
    (hv : validate_file env.fs s = true) (hw : validate_file env.fs d = true)
    (hr : env.remote = CallResult.raise m) :
    (face_swap env s d).attempts = 1 ∧ (face_swap env s d).sleeps = [] ∧
    (face_swap env s d).result = CallResult.ret ("Error: " ++ m, [Effect.remoteCall]) := by
  rw [face_swap_run]
  exact ⟨rfl, rfl, by rw [face_swap_body_raise env s d m hv hw hr]⟩

/-- C1 witness: the failing input — both inputs valid, the remote raises
`network unreachable` — evaluated through the retry wrapper. -/
theorem face_swap_exception_no_retry_witness :
    (face_swap exSwapEnvRaise "/t/s.png" "/t/d.png").attempts = 1 ∧
    (face_swap exSwapEnvRaise "/t/s.png" "/t/d.png").sleeps = [] ∧
    (face_swap exSwapEnvRaise "/t/s.png" "/t/d.png").result =
      CallResult.ret ("Error: " ++ "network unreachable", [Effect.remoteCall]) :=
  face_swap_exception_no_retry exSwapEnvRaise "/t/s.png" "/t/d.png" "network unreachable"
    (by decide) (by decide) rfl

/-- C2: when the remote call returns but the result location is empty or
does not exist, `face_swap` returns the string `"Face swap failed"`, which
the line-164 classification does not match; the handler therefore responds
with `HResp.ok "/output/Face swap failed"` (an HTTP 200), stores the
sentinel under the pair key, and any identical upload pair within the TTL
is then served that cached sentinel with no remote invocation. -/
theorem face_swap_failed_sentinel_cached (env env2 : ReqEnv) (cache : Cache)
    (src dst : UploadFile) (r : String)
    (h1 : ¬(src.filename = "" ∨ dst.filename = ""))
    (h2 : (allowed_file src.filename && allowed_file dst.filename) = true)
    (hmiss : cacheGet cache env.now (requestKey env src dst) = none)
    (hrem : env.remote = CallResult.ret r)
    (hr : (r != "" && (requestSwapEnv env src dst).fs.contains r) = false)
    (hd : env2.digest = env.digest) (hc : env2.compress = env.compress)
    (ht : env2.now < env.now + TTL) :
    (swap_faces env cache src dst).resp = HResp.ok "/output/Face swap failed" ∧
    (swap_faces env cache src dst).cache =
      cachePut cache env.now (requestKey env src dst) "Face swap failed" ∧
    (swap_faces env2 (swap_faces env cache src dst).cache src dst).resp =
      HResp.ok "/output/Face swap failed" ∧
    Effect.remoteCall ∉ (swap_faces env2 (swap_faces env cache src dst).cache src dst).effects := by
  have hall : allowed_file src.filename = true ∧ allowed_file dst.filename = true := by
    simpa using h2
  obtain ⟨hvS, hvD⟩ := requestSwap_validates env src dst hall.1 hall.2
  have hresult : requestSwapResult env src dst = "Face swap failed" := by
    unfold requestSwapResult
    rw [face_swap_value_eq, face_swap_body_noresult (requestSwapEnv env src dst)
      (sourceTempPath env src) (destTempPath env dst) r hvS hvD hrem hr]
  have hsent : isFailureSentinel (requestSwapResult env src dst) = false := by
    rw [hresult]
    decide
  have hfirst := swap_faces_miss_ok env cache src dst h1 h2 hmiss hsent
  have hb : ("/output/" ++ basename "Face swap failed") = "/output/Face swap failed" := by decide
  have hcache2 : (swap_faces env cache src dst).cache =
      cachePut cache env.now (requestKey env src dst) "Face swap failed" := by
    rw [hfirst, hresult]
  have hhit : cacheGet ((swap_faces env cache src dst).cache) env2.now (requestKey env2 src dst)
      = some "Face swap failed" := by
    rw [hcache2, requestKey_indep env env2 src dst hd hc]
    exact cacheGet_cachePut_same cache env.now env2.now _ _ ht
  have hsecond := swap_faces_hit env2 ((swap_faces env cache src dst).cache) src dst
    "Face swap failed" h1 h2 hhit
  refine ⟨?_, hcache2, ?_, ?_⟩
  · rw [hfirst, hresult]
    simp only [hb]
  · rw [hsecond]
    simp only [hb]
  · rw [hsecond]
    exact remoteCall_not_in_pre env2 src dst

/-- C2 witness: the remote returns an empty location; the first request is
served `"/output/Face swap failed"` with HTTP 200, the sentinel is cached,
and the identical request 500 seconds later is served from the cache with
no remote call. -/
theorem face_swap_failed_sentinel_cached_witness :
    (swap_faces exEnvNoResult [] exSrc exDst).resp = HResp.ok "/output/Face swap failed" ∧
    (swap_faces exEnvNoResult [] exSrc exDst).cache =
      cachePut [] exEnvNoResult.now (requestKey exEnvNoResult exSrc exDst) "Face swap failed" ∧
    (swap_faces { exEnvNoResult with now := 1500 }
        (swap_faces exEnvNoResult [] exSrc exDst).cache exSrc exDst).resp =
      HResp.ok "/output/Face swap failed" ∧
    Effect.remoteCall ∉
      (swap_faces { exEnvNoResult with now := 1500 }
        (swap_faces exEnvNoResult [] exSrc exDst).cache exSrc exDst).effects :=
  face_swap_failed_sentinel_cached exEnvNoResult { exEnvNoResult with now := 1500 } []
    exSrc exDst "" (by decide) (by decide) rfl rfl (by decide) rfl rfl (by decide)

/-- C3 counterexample: two consecutive identical upload pairs within the
TTL window where the second request misses the cache and performs a remote
invocation — because the first request failed (remote network error, HTTP
500) and therefore stored nothing.  This refutes the claim as stated,
which asserts a hit for every such pair of consecutive requests. -/
theorem consecutive_requests_counterexample :
    (swap_faces exEnvFail [] exSrc exDst).resp.statusCode = 500 ∧
    (swap_faces exEnvFail [] exSrc exDst).cache = [] ∧
    Effect.remoteCall ∈
      (swap_faces { exEnvFail with now := 1500 }
        (swap_faces exEnvFail [] exSrc exDst).cache exSrc exDst).effects := by
  decide

/-- C3 (amended): for two consecutive identical upload pairs within the TTL
window, provided the first request succeeded (its outcome is not classified
as a failure, so it stored a cache entry), the second request hits the
cache and returns the same response immediately — no remote invocation, no
re-finalization (no disk write), and no cache change. -/
theorem cache_hit_after_success (env env2 : ReqEnv) (cache : Cache) (src dst : UploadFile)
    (h1 : ¬(src.filename = "" ∨ dst.filename = ""))
    (h2 : (allowed_file src.filename && allowed_file dst.filename) = true)
    (hmiss : cacheGet cache env.now (requestKey env src dst) = none)
    (hok : isFailureSentinel (requestSwapResult env src dst) = false)
    (hd : env2.digest = env.digest) (hc : env2.compress = env.compress)
    (ht : env2.now < env.now + TTL) :
    (swap_faces env2 (swap_faces env cache src dst).cache src dst).resp =
      (swap_faces env cache src dst).resp ∧
    Effect.remoteCall ∉ (swap_faces env2 (swap_faces env cache src dst).cache src dst).effects ∧
    (∀ p, Effect.diskWrite p ∉
      (swap_faces env2 (swap_faces env cache src dst).cache src dst).effects) ∧
    (swap_faces env2 (swap_faces env cache src dst).cache src dst).cache =
      (swap_faces env cache src dst).cache := by
  have hfirst := swap_faces_miss_ok env cache src dst h1 h2 hmiss hok
  have hcache2 : (swap_faces env cache src dst).cache =
      cachePut cache env.now (requestKey env src dst) (requestSwapResult env src dst) := by
    rw [hfirst]
  have hhit : cacheGet ((swap_faces env cache src dst).cache) env2.now (requestKey env2 src dst)
      = some (requestSwapResult env src dst) := by
    rw [hcache2, requestKey_indep env env2 src dst hd hc]
    exact cacheGet_cachePut_same cache env.now env2.now _ _ ht
  have hsecond := swap_faces_hit env2 ((swap_faces env cache src dst).cache) src dst
    (requestSwapResult env src dst) h1 h2 hhit
  refine ⟨?_, ?_, ?_, ?_⟩
  · rw [hsecond, hfirst]
  · rw [hsecond]
    exact remoteCall_not_in_pre env2 src dst
  · intro p
    rw [hsecond]
    exact diskWrite_not_in_pre env2 src dst p
  · rw [hsecond]

/-- C3 witness: a successful first request followed by the identical pair
500 seconds later — the second is served from the cache, with no remote
call and no disk write. -/
theorem cache_hit_after_success_witness :
    (swap_faces { exEnvOk with now := 1500 }
        (swap_faces exEnvOk [] exSrc exDst).cache exSrc exDst).resp =
      (swap_faces exEnvOk [] exSrc exDst).resp ∧
    Effect.remoteCall ∉
      (swap_faces { exEnvOk with now := 1500 }
        (swap_faces exEnvOk [] exSrc exDst).cache exSrc exDst).effects ∧
    (∀ p, Effect.diskWrite p ∉
      (swap_faces { exEnvOk with now := 1500 }
        (swap_faces exEnvOk [] exSrc exDst).cache exSrc exDst).effects) ∧
    (swap_faces { exEnvOk with now := 1500 }
        (swap_faces exEnvOk [] exSrc exDst).cache exSrc exDst).cache =
      (swap_faces exEnvOk [] exSrc exDst).cache :=
  cache_hit_after_success exEnvOk { exEnvOk with now := 1500 } [] exSrc exDst
    (by decide) (by decide) rfl (by decide) rfl rfl (by decide)

/-- C4: whenever the remote invocation outcome is classified as a failure
by line 164 (`"Invalid input files"`, `"Failed to save output"`, or an
`"Error"` prefix), the handler raises HTTP 500 carrying that string and the
cache is left unchanged — no entry is created for the pair key. -/
theorem failure_500_cache_unchanged (env : ReqEnv) (cache : Cache) (src dst : UploadFile)
    (h1 : ¬(src.filename = "" ∨ dst.filename = ""))
    (h2 : (allowed_file src.filename && allowed_file dst.filename) = true)
    (hmiss : cacheGet cache env.now (requestKey env src dst) = none)
    (hfail : isFailureSentinel (requestSwapResult env src dst) = true) :
    (swap_faces env cache src dst).resp = HResp.err 500 (requestSwapResult env src dst) ∧
    (swap_faces env cache src dst).cache = cache := by
  rw [swap_faces_miss_fail env cache src dst h1 h2 hmiss hfail]
  exact ⟨rfl, rfl⟩

/-- C4 witness: a remote network error on every attempt yields a 500 and an
unchanged (empty) cache. -/
theorem failure_500_cache_unchanged_witness :
    (swap_faces exEnvFail [] exSrc exDst).resp =
      HResp.err 500 (requestSwapResult exEnvFail exSrc exDst) ∧
    (swap_faces exEnvFail [] exSrc exDst).cache = [] :=
  failure_500_cache_unchanged exEnvFail [] exSrc exDst (by decide) (by decide) rfl (by decide)

/-- C5: `compress_image` never raises — its type is total — and whenever
its `try` body raises at any internal step (decode, resize, re-encode or
read-back), the original input bytes are returned unchanged. -/
theorem compress_image_fail_open (beh : CompressBeh) (ti tOut : String) (content : List Nat)
    (m : String) (effs : List Effect)
    (h : compress_image_try beh ti tOut = (CallResult.raise m, effs)) :
    compress_image beh ti tOut content = (content, effs) := by
  unfold compress_image
  rw [h]

/-- C5 witness: a save-step failure returns the payload `[9, 9]` unchanged. -/
theorem compress_image_fail_open_witness :
    compress_image_try (CompressBeh.failLate "disk full") "/tmp/a.png" "/tmp/b.png" =
      (CallResult.raise "disk full",
        [Effect.tempCreate "/tmp/a.png", Effect.tempCreate "/tmp/b.png"]) ∧
    compress_image (CompressBeh.failLate "disk full") "/tmp/a.png" "/tmp/b.png" [9, 9] =
      ([9, 9], [Effect.tempCreate "/tmp/a.png", Effect.tempCreate "/tmp/b.png"]) :=
  ⟨rfl, compress_image_fail_open (CompressBeh.failLate "disk full") "/tmp/a.png" "/tmp/b.png"
    [9, 9] "disk full" [Effect.tempCreate "/tmp/a.png", Effect.tempCreate "/tmp/b.png"] rfl⟩

/-- C6 counterexample: the claim says `face_swap` does not itself write the
finalized output artifact to disk.  But on a successful remote call the
deployed `face_swap` calls `save_output_image` internally: on the concrete
environment `exSwapEnvOk` its returned value is the output path and its
effect trace contains the corresponding disk write. -/
theorem face_swap_disk_write_counterexample :
    (face_swap_value exSwapEnvOk "/t/s.png" "/t/d.png").1 = "output/face_swap_abc123.png" ∧
    Effect.diskWrite "output/face_swap_abc123.png" ∈
      (face_swap_value exSwapEnvOk "/t/s.png" "/t/d.png").2 := by
  decide

/-- C6 (amended): `face_swap` never writes to the result cache — that is
the caller responsibility, as claimed — but finalization is performed
inside `face_swap` itself: whenever its outcome is a success (neither a
failure sentinel nor `"Face swap failed"`), the returned value is a path
the invocation itself wrote to disk. -/
theorem face_swap_no_cache_write (env : SwapEnv) (s d : String) :
    (∀ k v, Effect.cacheWrite k v ∉ (face_swap_value env s d).2) ∧
    (isFailureSentinel (face_swap_value env s d).1 = false →
      (face_swap_value env s d).1 ≠ "Face swap failed" →
      Effect.diskWrite (face_swap_value env s d).1 ∈ (face_swap_value env s d).2) := by
  by_cases hval : (validate_file env.fs s && validate_file env.fs d) = true
  · obtain ⟨hv, hw⟩ : validate_file env.fs s = true ∧ validate_file env.fs d = true := by
      simpa using hval
    cases hrem : env.remote with
    | raise m =>
      rw [face_swap_value_eq, face_swap_body_raise env s d m hv hw hrem]
      refine ⟨by intro k v; simp, ?_⟩
      intro hsent _
      rw [sentinel_error_append m] at hsent
      cases hsent
    | ret r =>
      by_cases hres : (r != "" && env.fs.contains r) = true
      · cases hsv : env.saveOk with
        | true =>
          rw [face_swap_value_eq, face_swap_body_success env s d r hv hw hrem hres hsv]
          refine ⟨by intro k v; simp, ?_⟩
          intro _ _
          simp
        | false =>
          rw [face_swap_value_eq, face_swap_body_savefail env s d r hv hw hrem hres hsv]
          refine ⟨by intro k v; simp, ?_⟩
          intro hsent _
          rw [show isFailureSentinel "Failed to save output" = true from by decide] at hsent
          cases hsent
      · have hres2 : (r != "" && env.fs.contains r) = false := by simpa using hres
        rw [face_swap_value_eq, face_swap_body_noresult env s d r hv hw hrem hres2]
        refine ⟨by intro k v; simp, ?_⟩
        intro _ hne
        exact absurd rfl hne
  · have hval2 : (validate_file env.fs s && validate_file env.fs d) = false := by simpa using hval
    rw [face_swap_value_eq, face_swap_body_invalid env s d hval2]
    refine ⟨by intro k v; simp, ?_⟩
    intro hsent _
    rw [show isFailureSentinel "Invalid input files" = true from by decide] at hsent
    cases hsent

/-- C6 witness: on the successful concrete environment the trace has no
cache write, and the returned path was written to disk by the invocation
itself. -/
theorem face_swap_no_cache_write_witness :
    (∀ k v, Effect.cacheWrite k v ∉ (face_swap_value exSwapEnvOk "/t/s.png" "/t/d.png").2) ∧
    Effect.diskWrite (face_swap_value exSwapEnvOk "/t/s.png" "/t/d.png").1 ∈
      (face_swap_value exSwapEnvOk "/t/s.png" "/t/d.png").2 :=
  ⟨(face_swap_no_cache_write exSwapEnvOk "/t/s.png" "/t/d.png").1,
    (face_swap_no_cache_write exSwapEnvOk "/t/s.png" "/t/d.png").2 (by decide) (by decide)⟩

/-- C7: a request in which either upload is missing a filename, or either
filename extension is not png/jpg/jpeg case-insensitively, is answered with
an HTTP 400 and neither payload is ever read. -/
theorem invalid_upload_400_no_read (env : ReqEnv) (cache : Cache) (src dst : UploadFile)
    (h : src.filename = "" ∨ dst.filename = "" ∨
      allowed_file src.filename = false ∨ allowed_file dst.filename = false) :
    (swap_faces env cache src dst).resp.statusCode = 400 ∧
    ∀ f, Effect.readUpload f ∉ (swap_faces env cache src dst).effects := by
  by_cases h0 : src.filename = "" ∨ dst.filename = ""
  · rw [swap_faces_nofile env cache src dst h0]
    exact ⟨rfl, by intro f hf; simp at hf⟩
  · have h2 : (allowed_file src.filename && allowed_file dst.filename) = false := by
      rcases h with h | h | h | h
      · exact absurd (Or.inl h) h0
      · exact absurd (Or.inr h) h0
      · simp [h]
      · simp [h]
    rw [swap_faces_badfmt env cache src dst h0 h2]
    exact ⟨rfl, by intro f hf; simp at hf⟩

/-- C7 witness: the spec example — an upload named `image.txt` gets a 400
and no payload read. -/
theorem invalid_upload_400_no_read_witness :
    (swap_faces exEnvFail [] ⟨"image.txt", [3]⟩ exDst).resp.statusCode = 400 ∧
    ∀ f, Effect.readUpload f ∉ (swap_faces exEnvFail [] ⟨"image.txt", [3]⟩ exDst).effects :=
  invalid_upload_400_no_read exEnvFail [] ⟨"image.txt", [3]⟩ exDst (by decide)

/-- C8 counterexample: the claim says every temporary file created during a
request is deleted on every exit path, including the ones created while
normalizing the uploads.  But `compress_image` uses
`NamedTemporaryFile(delete=False)` and never unlinks: on a concrete request
its first temp file is created and never deleted. -/
theorem compress_temp_leak_counterexample :
    Effect.tempCreate "/tmp/in_s.png" ∈ (swap_faces exEnvFail [] exSrc exDst).effects ∧
    Effect.tempDelete "/tmp/in_s.png" ∉ (swap_faces exEnvFail [] exSrc exDst).effects := by
  decide

/-- C8 (amended): assuming the oracle temp-file names are distinct (as real
`NamedTemporaryFile` and `TemporaryDirectory` names are), the two files in
the request-scoped temporary directory are deleted on every exit path that
created them — success and failure alike — and those are the only files the
request ever deletes; in particular the `compress_image` temp files are
never deleted. -/
theorem scoped_temp_cleanup (env : ReqEnv) (cache : Cache) (src dst : UploadFile)
    (hdist : ∀ q, q ∈ [env.tmpInS, env.tmpOutS, env.tmpInD, env.tmpOutD] →
      q ≠ sourceTempPath env src ∧ q ≠ destTempPath env dst) :
    (∀ p, Effect.tempDelete p ∈ (swap_faces env cache src dst).effects →
      p = sourceTempPath env src ∨ p = destTempPath env dst) ∧
    (Effect.tempCreate (sourceTempPath env src) ∈ (swap_faces env cache src dst).effects →
      Effect.tempDelete (sourceTempPath env src) ∈ (swap_faces env cache src dst).effects) ∧
    (Effect.tempCreate (destTempPath env dst) ∈ (swap_faces env cache src dst).effects →
      Effect.tempDelete (destTempPath env dst) ∈ (swap_faces env cache src dst).effects) := by
  by_cases hA : src.filename = "" ∨ dst.filename = ""
  · rw [swap_faces_nofile env cache src dst hA]
    refine ⟨?_, ?_, ?_⟩
    · intro p hp
      simp at hp
    · intro hp
      simp at hp
    · intro hp
      simp at hp
  · by_cases hB : (allowed_file src.filename && allowed_file dst.filename) = true
    · cases hC : cacheGet cache env.now (requestKey env src dst) with
      | some v =>
        rw [swap_faces_hit env cache src dst v hA hB hC]
        refine ⟨?_, ?_, ?_⟩
        · intro p hp
          exact absurd hp (tempDelete_not_in_pre env src dst p)
        · intro hp
          rcases tempCreate_mem_pre env src dst _ hp with h | h | h | h
          · exact absurd h.symm (hdist env.tmpInS (by simp)).1
          · exact absurd h.symm (hdist env.tmpOutS (by simp)).1
          · exact absurd h.symm (hdist env.tmpInD (by simp)).1
          · exact absurd h.symm (hdist env.tmpOutD (by simp)).1
        · intro hp
          rcases tempCreate_mem_pre env src dst _ hp with h | h | h | h
          · exact absurd h.symm (hdist env.tmpInS (by simp)).2
          · exact absurd h.symm (hdist env.tmpOutS (by simp)).2
          · exact absurd h.symm (hdist env.tmpInD (by simp)).2
          · exact absurd h.symm (hdist env.tmpOutD (by simp)).2
      | none =>
        by_cases hD : isFailureSentinel (requestSwapResult env src dst) = true
        · rw [swap_faces_miss_fail env cache src dst hA hB hC hD]
          refine ⟨?_, ?_, ?_⟩
          · intro p hp
            simp [errorEffects] at hp
            rcases hp with hp | hp | hp | hp
            · exact absurd hp (tempDelete_not_in_pre env src dst p)
            · rcases mem_requestSwapEffects env src dst _ hp with h | ⟨q, h⟩ <;> simp at h
            · exact Or.inl hp
            · exact Or.inr hp
          · intro _
            simp [errorEffects]
          · intro _
            simp [errorEffects]
        · have hD2 : isFailureSentinel (requestSwapResult env src dst) = false := by
            simpa using hD
          rw [swap_faces_miss_ok env cache src dst hA hB hC hD2]
          refine ⟨?_, ?_, ?_⟩
          · intro p hp
            simp [successEffects] at hp
            rcases hp with hp | hp | hp | hp
            · exact absurd hp (tempDelete_not_in_pre env src dst p)
            · rcases mem_requestSwapEffects env src dst _ hp with h | ⟨q, h⟩ <;> simp at h
            · exact Or.inl hp
            · exact Or.inr hp
          · intro _
            simp [successEffects]
          · intro _
            simp [successEffects]
    · have hB2 : (allowed_file src.filename && allowed_file dst.filename) = false := by
        simpa using hB
      rw [swap_faces_badfmt env cache src dst hA hB2]
      refine ⟨?_, ?_, ?_⟩
      · intro p hp
        simp at hp
      · intro hp
        simp at hp
      · intro hp
        simp at hp

/-- C8 witness: on the concrete failing request both request-scoped temp
copies are deleted (the error path still cleans the scoped directory). -/
theorem scoped_temp_cleanup_witness :
    Effect.tempDelete (sourceTempPath exEnvFail exSrc) ∈
      (swap_faces exEnvFail [] exSrc exDst).effects ∧
    Effect.tempDelete (destTempPath exEnvFail exDst) ∈
      (swap_faces exEnvFail [] exSrc exDst).effects :=
  ⟨(scoped_temp_cleanup exEnvFail [] exSrc exDst (by decide)).2.1 (by decide),
    (scoped_temp_cleanup exEnvFail [] exSrc exDst (by decide)).2.2 (by decide)⟩

/-- C9: the pair key is order-sensitive — whenever the two fingerprints
differ, swapping the source and destination roles produces a different
key.  (Fixed-width digests make the colon-joined concatenation injective in
its first component.) -/
theorem pairKey_order_sensitive (digest : List Nat → Nat) (A B : List Nat)
    (h : get_file_hash digest A ≠ get_file_hash digest B) :
    pairKey digest A B ≠ pairKey digest B A := by
  intro heq
  apply h
  have h1 : (get_file_hash digest A).data ++ (":".data ++ (get_file_hash digest B).data)
      = (get_file_hash digest B).data ++ (":".data ++ (get_file_hash digest A).data) := by
    have h0 := congrArg String.data heq
    simpa [pairKey, List.append_assoc] using h0
  have h2 := List.append_inj h1
    (by rw [get_file_hash_data_length, get_file_hash_data_length])
  exact String.ext h2.1

/-- C9 witness: a digest oracle and two payloads with distinct fingerprints
whose two pair keys differ. -/
theorem pairKey_order_sensitive_witness :
    get_file_hash (fun l => l.length) [0] ≠ get_file_hash (fun l => l.length) [] ∧
    pairKey (fun l => l.length) [0] [] ≠ pairKey (fun l => l.length) [] [0] :=
  ⟨by decide, pairKey_order_sensitive (fun l => l.length) [0] [] (by decide)⟩

/-- C10: on a successful miss the cache stores exactly the filesystem path
returned by the invoker (not a URL), the 200 response is
`"/output/" ++ basename` of that stored path, and any later request whose
lookup hits that entry is served a response identical to the one served
when the entry was stored. -/
theorem cached_path_response_invariant (env : ReqEnv) (cache : Cache) (src dst : UploadFile)
    (h1 : ¬(src.filename = "" ∨ dst.filename = ""))
    (h2 : (allowed_file src.filename && allowed_file dst.filename) = true)
    (hmiss : cacheGet cache env.now (requestKey env src dst) = none)
    (hok : isFailureSentinel (requestSwapResult env src dst) = false) :
    (swap_faces env cache src dst).cache =
      cachePut cache env.now (requestKey env src dst) (requestSwapResult env src dst) ∧
    (swap_faces env cache src dst).resp =
      HResp.ok ("/output/" ++ basename (requestSwapResult env src dst)) ∧
    (∀ (env2 : ReqEnv) (c2 : Cache),
      cacheGet c2 env2.now (requestKey env src dst) = some (requestSwapResult env src dst) →
      env2.digest = env.digest → env2.compress = env.compress →
      (swap_faces env2 c2 src dst).resp = (swap_faces env cache src dst).resp) := by
  have hfirst := swap_faces_miss_ok env cache src dst h1 h2 hmiss hok
  refine ⟨by rw [hfirst], by rw [hfirst], ?_⟩
  intro env2 c2 hhit hd hc
  have hhit2 : cacheGet c2 env2.now (requestKey env2 src dst)
      = some (requestSwapResult env src dst) := by
    rw [requestKey_indep env env2 src dst hd hc]
    exact hhit
  rw [swap_faces_hit env2 c2 src dst _ h1 h2 hhit2, hfirst]

/-- C10 witness: a later request hitting a cache holding the stored path is
served the very response of the storing request. -/
theorem cached_path_response_invariant_witness :
    (swap_faces { exEnvOk with now := 2000 }
        [(requestKey exEnvOk exSrc exDst, requestSwapResult exEnvOk exSrc exDst, 9999)]
        exSrc exDst).resp =
      (swap_faces exEnvOk [] exSrc exDst).resp :=
  (cached_path_response_invariant exEnvOk [] exSrc exDst
      (by decide) (by decide) rfl (by decide)).2.2
    { exEnvOk with now := 2000 }
    [(requestKey exEnvOk exSrc exDst, requestSwapResult exEnvOk exSrc exDst, 9999)]
    (by decide) rfl rfl

end FaceSwap
